import Mathlib

/-!
Verification of the two algorithmic pieces of this repository fragment:

* `AmbientNetwork.create_mnemonic` — the station-mnemonic generator of
  `homeassistant/components/ambient_network/config_flow.py`
  (`ConfigFlow.create_mnemonic`).
* `Hydrawise.update_daily_water_use` / `Hydrawise.update_data_water_use` — the
  daily water-use reconciliation of
  `homeassistant/components/hydrawise/coordinator.py`
  (`HydrawiseDataUpdateCoordinator._async_update_daily_water_use` and the
  water-use part of `_async_update_data`).

Strings are modelled as `List Char`, Python `float` volumes as `ℚ`, and the
Python `dict[int, DailyWaterUse]` as an insertion-ordered association list
with unique keys, so that every mutation of the original code becomes an
explicit state-passing function.
-/

namespace AmbientNetwork

/-- Character class `[a-z]` of the segmentation regex (ASCII lowercase letter). -/
def isLowerAlpha (c : Char) : Bool := 97 ≤ c.toNat && c.toNat ≤ 122

/-- Character class `[A-Z]` (ASCII uppercase letter). -/
def isUpperAlpha (c : Char) : Bool := 65 ≤ c.toNat && c.toNat ≤ 90

/-- Character class `[0-9]` (ASCII digit). -/
def isDigitCh (c : Char) : Bool := 48 ≤ c.toNat && c.toNat ≤ 57

/-- Character class `[a-zA-Z]` used by the per-part match. -/
def isAlphaCh (c : Char) : Bool := isLowerAlpha c || isUpperAlpha c

/-- Character class `[a-z0-9-]`: tail characters of the first two alternatives of
the segmentation regex. -/
def lowerTail (c : Char) : Bool := isLowerAlpha c || isDigitCh c || c = '-'

/-- Character class `[A-Z0-9-]`: tail characters of the third alternative. -/
def upperTail (c : Char) : Bool := isUpperAlpha c || isDigitCh c || c = '-'

/-- ASCII whitespace recognised by Python `str.split()` with no arguments
(space, tab, newline, carriage return, vertical tab, form feed). -/
def isSpaceCh (c : Char) : Bool :=
  c = ' ' || c = '\t' || c = '\n' || c = '\r' || c.toNat = 11 || c.toNat = 12

/-- Python `str.upper()` on a single character, restricted to ASCII (the only
characters the mnemonic code ever feeds to it are ASCII letters). -/
def py_upper (c : Char) : Char :=
  if isLowerAlpha c then Char.ofNat (c.toNat - 32) else c

/-- Python `text.split()`: whitespace-separated words, empty chunks dropped. -/
def pySplit (text : List Char) : List (List Char) :=
  (text.splitOnP isSpaceCh).filter (fun w => !w.isEmpty)

/-- One left-to-right pass of
`re.findall(r"[a-z][a-z0-9\-]+|[A-Z][a-z0-9\-]+|[A-Z][A-Z0-9\-]+", word)`.
At each position the three alternatives are tried in order and each is greedy
(nothing follows the final `+`, so greediness means a maximal run); when no
alternative matches, the scan advances one character; matches do not overlap.
Every alternative needs at least two characters.  The fuel argument only bounds
the recursion depth: each step consumes at least one character, so fuel equal
to the word length (see `findParts`) is never exhausted. -/
def findPartsF : Nat → List Char → List (List Char)
  | 0, _ => []
  | _ + 1, [] => []
  | _ + 1, [_] => []
  | fuel + 1, c :: d :: rest =>
    if isLowerAlpha c && lowerTail d then
      (c :: d :: rest.takeWhile lowerTail) :: findPartsF fuel (rest.dropWhile lowerTail)
    else if isUpperAlpha c && lowerTail d then
      (c :: d :: rest.takeWhile lowerTail) :: findPartsF fuel (rest.dropWhile lowerTail)
    else if isUpperAlpha c && upperTail d then
      (c :: d :: rest.takeWhile upperTail) :: findPartsF fuel (rest.dropWhile upperTail)
    else findPartsF fuel (d :: rest)

/-- The list of parts produced for one word (`re.findall` of the source). -/
def findParts (w : List Char) : List (List Char) := findPartsF w.length w

/-- Python `part[0].upper()` (empty input contributes nothing; parts are in
fact never empty). -/
def firstUpper : List Char → List Char
  | [] => []
  | c :: _ => [py_upper c]

/-- Contribution of one part: `re.match(r"([a-zA-Z]+)[\-0-9]", part)` succeeds
exactly when the maximal leading letter run is non-empty and is immediately
followed by a hyphen or a digit (backtracking cannot help: any shorter letter
run is followed by a letter); on success the whole letter run is uppercased,
otherwise the first character of the part is uppercased. -/
def partContribution (part : List Char) : List Char :=
  match part.dropWhile isAlphaCh with
  | c :: _ =>
    if !(part.takeWhile isAlphaCh).isEmpty && (c = '-' || isDigitCh c) then
      (part.takeWhile isAlphaCh).map py_upper
    else firstUpper part
  | [] => firstUpper part

/-- The mnemonic before the final `mnemonic[:4]` truncation: concatenation of
the contributions of all parts of all words, in order. -/
def rawMnemonic (text : List Char) : List Char :=
  ((pySplit text).map (fun w => ((findParts w).map partContribution).flatten)).flatten

/-- `ConfigFlow.create_mnemonic` of
`homeassistant/components/ambient_network/config_flow.py`. -/
def create_mnemonic (text : List Char) : List Char := (rawMnemonic text).take 4

/-- String-typed wrapper of `create_mnemonic` for concrete evaluations. -/
def create_mnemonic_str (s : String) : String := String.mk (create_mnemonic s.data)

end AmbientNetwork


namespace Hydrawise

/-- Volume units that can arrive on a vendor-reported volume. -/
inductive VolumeUnit
  | gallons
  | liters
  | cubic_meters
deriving DecidableEq

/-- Modelled from the spec: `homeassistant.util.unit_conversion.VolumeConverter`
(used by `HydrawiseDataUpdateCoordinator._to_gallons`) is not part of this
fragment; the spec only requires that each value is converted "to gallons via a
linear volume conversion" using its declared unit.  This is the per-unit
positive factor expressing one source unit in gallons (one gallon is exactly
3.785411784 litres). -/
def unitInGallons : VolumeUnit → ℚ
  | .gallons => 1
  | .liters => 1000000000 / 3785411784
  | .cubic_meters => 1000000000000 / 3785411784

/-- `pydrawise.schema.LocalizedValueType`: a value carrying its unit. -/
structure LocalizedValue where
  value : ℚ
  unit : VolumeUnit
deriving DecidableEq

/-- The `zone` of a run event; only its id is consulted. -/
structure Zone where
  id : Int
deriving DecidableEq

/-- The `run_event` of a watering-report entry. -/
structure RunEvent where
  zone : Option Zone
  reported_water_usage : Option LocalizedValue
deriving DecidableEq

/-- One entry of the list returned by `api.get_watering_report`. -/
structure WateringReportEntry where
  run_event : Option RunEvent
deriving DecidableEq

/-- The value returned by `api.get_water_flow_summary`. -/
structure WaterFlowSummary where
  total_water_volume : LocalizedValue
deriving DecidableEq

/-- The `DailyWaterUse` dataclass of `coordinator.py`. -/
structure DailyWaterUse where
  active : ℚ
  non_active : ℚ
deriving DecidableEq

/-- `HydrawiseDataUpdateCoordinator._to_gallons`. -/
def to_gallons (v : LocalizedValue) : ℚ := v.value * unitInGallons v.unit

/-- The Python `dict[int, DailyWaterUse]` as an insertion-ordered association
list with unique keys (Python dicts preserve insertion order; new keys are
appended, assignments to existing keys update in place). -/
abbrev WaterUseDict := List (Int × DailyWaterUse)

/-- Python `d[k]` as an optional lookup. -/
def dictLookup : WaterUseDict → Int → Option DailyWaterUse
  | [], _ => none
  | (k1, v1) :: rest, k => if k = k1 then some v1 else dictLookup rest k

/-- Python `d.setdefault(k, v)`: keep an existing entry, append `(k, v)` if the
key is absent. -/
def dictSetdefault : WaterUseDict → Int → DailyWaterUse → WaterUseDict
  | [], k, v => [(k, v)]
  | (k1, v1) :: rest, k, v =>
    if k = k1 then (k1, v1) :: rest else (k1, v1) :: dictSetdefault rest k v

/-- Python `d[k].active += a` on a key that is present (after `setdefault` it
always is); a missing key is left untouched. -/
def dictAddActive : WaterUseDict → Int → ℚ → WaterUseDict
  | [], _, _ => []
  | (k1, v1) :: rest, k, a =>
    if k = k1 then (k1, DailyWaterUse.mk (v1.active + a) v1.non_active) :: rest
    else (k1, v1) :: dictAddActive rest k a

/-- Python `d[k] = v`: overwrite in place, append if the key is absent. -/
def dictSet : WaterUseDict → Int → DailyWaterUse → WaterUseDict
  | [], k, v => [(k, v)]
  | (k1, v1) :: rest, k, v =>
    if k = k1 then (k1, v) :: rest else (k1, v1) :: dictSet rest k v

/-- Body of the per-entry loop of `_async_update_daily_water_use`: an entry
whose `run_event` has both a zone and a reported usage adds its
gallons-converted volume to the running total and (after a `setdefault` of the
zone's entry) to the zone's `active` accumulator; every other entry is
skipped.  The state is the pair (running `total_active_use`, dict). -/
def accumulate_entry (st : ℚ × WaterUseDict) (entry : WateringReportEntry) :
    ℚ × WaterUseDict :=
  match entry.run_event with
  | none => st
  | some re =>
    match re.zone, re.reported_water_usage with
    | some z, some usage =>
      let active_use := to_gallons usage
      (st.1 + active_use,
       dictAddActive (dictSetdefault st.2 z.id (DailyWaterUse.mk 0 0)) z.id active_use)
    | _, _ => st

/-- The whole per-entry loop over the watering report. -/
def accumulate_report (report : List WateringReportEntry) (st : ℚ × WaterUseDict) :
    ℚ × WaterUseDict :=
  report.foldl accumulate_entry st

/-- `HydrawiseDataUpdateCoordinator._async_update_daily_water_use` with the two
API responses (watering report, water-flow summary) passed as data and the
mutated dict threaded explicitly: accumulate the report into the dict, then
store at the controller's key the pair (total use, inactive use) where total
use is `total_use if total_use > total_active_use else total_active_use` and
inactive use is `total_use - total_active_use if total_use > total_active_use
else 0.0`. -/
def update_daily_water_use (report : List WateringReportEntry)
    (summary : WaterFlowSummary) (controller_id : Int)
    (daily_water_use : WaterUseDict) : WaterUseDict :=
  let st := accumulate_report report (0, daily_water_use)
  let total_active_use := st.1
  let total_use := to_gallons summary.total_water_volume
  dictSet st.2 controller_id
    (DailyWaterUse.mk
      (if total_use > total_active_use then total_use else total_active_use)
      (if total_use > total_active_use then total_use - total_active_use else 0))

/-- Gallons-converted volume one entry contributes to `total_active_use`
(zero for entries without run event, zone or reported usage). -/
def entry_active (e : WateringReportEntry) : ℚ :=
  match e.run_event with
  | none => 0
  | some re =>
    match re.zone, re.reported_water_usage with
    | some _, some usage => to_gallons usage
    | _, _ => 0

/-- Gallons-converted volume one entry contributes to the zone `k`. -/
def entry_active_for (k : Int) (e : WateringReportEntry) : ℚ :=
  match e.run_event with
  | none => 0
  | some re =>
    match re.zone, re.reported_water_usage with
    | some z, some usage => if z.id = k then to_gallons usage else 0
    | _, _ => 0

/-- Whether the entry is attributed to zone `k` (run event, zone and usage all
present and the zone's id is `k`). -/
def entry_attributes (k : Int) (e : WateringReportEntry) : Bool :=
  match e.run_event with
  | none => false
  | some re =>
    match re.zone, re.reported_water_usage with
    | some z, some _ => decide (z.id = k)
    | _, _ => false

/-- The `total_active_use` the loop ends with (starting from zero). -/
def total_active_use (report : List WateringReportEntry) : ℚ :=
  (report.map entry_active).sum

/-- Total gallons the report attributes to zone `k`. -/
def zone_active_use (report : List WateringReportEntry) (k : Int) : ℚ :=
  (report.map (entry_active_for k)).sum

/-- Whether some entry of the report is attributed to zone `k`. -/
def attributes_zone (report : List WateringReportEntry) (k : Int) : Bool :=
  report.any (entry_attributes k)

/-- The reported usage value carried by an entry (zero when absent); used only
to state the spec's non-negativity hypothesis on the inputs. -/
def entry_usage_value (e : WateringReportEntry) : ℚ :=
  match e.run_event with
  | none => 0
  | some re =>
    match re.reported_water_usage with
    | some u => u.value
    | none => 0

/-- Sum of the `active` fields over all entries of the dict. -/
def dict_active_sum (d : WaterUseDict) : ℚ := (d.map (fun p => p.2.active)).sum

/-- The `model` of a sensor; only its `name` is consulted. -/
structure SensorModel where
  name : String
deriving DecidableEq

/-- A controller's sensor (`pydrawise.schema.Sensor`). -/
structure Sensor where
  id : Int
  model : SensorModel
deriving DecidableEq

/-- A controller together with its zones and sensors. -/
structure Controller where
  id : Int
  zones : List Zone
  sensors : List Sensor
deriving DecidableEq

/-- The user returned by `api.get_user`. -/
structure User where
  controllers : List Controller
deriving DecidableEq

/-- One snapshot of the vendor API: the user tree plus the watering report of
each controller (keyed by controller id) and the flow summary of each
controller/sensor pair (keyed by the two ids).  `_async_update_data` queries
exactly these three endpoints. -/
structure ApiSnapshot where
  user : User
  watering_report : Int → List WateringReportEntry
  water_flow_summary : Int → Int → WaterFlowSummary

/-- Python `str.lower()` on a single character, restricted to ASCII. -/
def py_lower (c : Char) : Char :=
  if 65 ≤ c.toNat && c.toNat ≤ 90 then Char.ofNat (c.toNat + 32) else c

/-- Whether the pattern is a leading run of the text (Python prefix test). -/
def leadMatch : List Char → List Char → Bool
  | [], _ => true
  | _ :: _, [] => false
  | p :: ps, c :: cs => p = c && leadMatch ps cs

/-- Python `pat in s` substring containment on character lists. -/
def containsPat (pat : List Char) : List Char → Bool
  | [] => leadMatch pat []
  | c :: rest => leadMatch pat (c :: rest) || containsPat pat rest

/-- The `"flow meter" in sensor.model.name.lower()` test of
`_async_update_data`. -/
def is_flow_meter (s : Sensor) : Bool :=
  containsPat ("flow meter").data (s.model.name.data.map py_lower)

/-- The daily-water-use portion of
`HydrawiseDataUpdateCoordinator._async_update_data`, generalised over the
initial dict: for every controller, every sensor whose model name contains
"flow meter" triggers one `update_daily_water_use` call on the shared dict.
The real code always starts from a fresh empty dict (`daily_water_use ... =
{}`). -/
def update_data_water_use_from (api : ApiSnapshot) (d0 : WaterUseDict) :
    WaterUseDict :=
  api.user.controllers.foldl
    (fun d c =>
      c.sensors.foldl
        (fun d2 s =>
          if is_flow_meter s then
            update_daily_water_use (api.watering_report c.id)
              (api.water_flow_summary c.id s.id) c.id d2
          else d2)
        d)
    d0

/-- The daily-water-use result of one `_async_update_data` poll. -/
def update_data_water_use (api : ApiSnapshot) : WaterUseDict :=
  update_data_water_use_from api []

/-- A watering-report entry attributed to zone `zid` with a reported volume of
`vol` gallons; used for concrete evaluations. -/
def sampleEvent (zid : Int) (vol : ℚ) : WateringReportEntry :=
  WateringReportEntry.mk (some (RunEvent.mk (some (Zone.mk zid)) (some (LocalizedValue.mk vol VolumeUnit.gallons))))

/-- A one-event report: zone 5 used 10 gallons. -/
def sampleReport : List WateringReportEntry := [sampleEvent 5 10]

/-- A flow summary totalling `vol` gallons. -/
def sampleSummary (vol : ℚ) : WaterFlowSummary :=
  WaterFlowSummary.mk (LocalizedValue.mk vol VolumeUnit.gallons)

/-- A report whose only event is attributed to a zone whose id collides with
the controller id 7. -/
def collidingReport : List WateringReportEntry := [sampleEvent 7 10]

/-- An API snapshot with one controller (id 1) carrying one flow-meter sensor,
whose report is `sampleReport` and whose flow summary totals 25 gallons. -/
def sampleApi : ApiSnapshot :=
  ApiSnapshot.mk
    (User.mk [Controller.mk 1 [Zone.mk 5] [Sensor.mk 30 (SensorModel.mk "Flow Meter 300")]])
    (fun _ => sampleReport)
    (fun _ _ => sampleSummary 25)

end Hydrawise

namespace Hydrawise

theorem dictLookup_dictSet_self (d : WaterUseDict) (k : Int) (v : DailyWaterUse) :
    dictLookup (dictSet d k v) k = some v := by
  induction d with
  | nil => simp [dictSet, dictLookup]
  | cons hd tl ih =>
    obtain ⟨k1, v1⟩ := hd
    by_cases h : k = k1
    · simp [dictSet, dictLookup, h]
    · simp [dictSet, dictLookup, h, ih]

theorem dictLookup_dictSet_ne (d : WaterUseDict) (k k2 : Int) (v : DailyWaterUse)
    (h : k2 ≠ k) : dictLookup (dictSet d k v) k2 = dictLookup d k2 := by
  induction d with
  | nil => simp [dictSet, dictLookup, h]
  | cons hd tl ih =>
    obtain ⟨k1, v1⟩ := hd
    by_cases h1 : k = k1
    · subst h1
      simp [dictSet, dictLookup, h]
    · by_cases h2 : k2 = k1 <;> simp [dictSet, dictLookup, h1, h2, ih]

theorem dictLookup_dictSetdefault_self (d : WaterUseDict) (k : Int) (v : DailyWaterUse) :
    dictLookup (dictSetdefault d k v) k = some ((dictLookup d k).getD v) := by
  induction d with
  | nil => simp [dictSetdefault, dictLookup]
  | cons hd tl ih =>
    obtain ⟨k1, v1⟩ := hd
    by_cases h : k = k1
    · simp [dictSetdefault, dictLookup, h]
    · simp [dictSetdefault, dictLookup, h, ih]

theorem dictLookup_dictSetdefault_ne (d : WaterUseDict) (k k2 : Int) (v : DailyWaterUse)
    (h : k2 ≠ k) : dictLookup (dictSetdefault d k v) k2 = dictLookup d k2 := by
  induction d with
  | nil => simp [dictSetdefault, dictLookup, h]
  | cons hd tl ih =>
    obtain ⟨k1, v1⟩ := hd
    by_cases h1 : k = k1
    · subst h1
      simp [dictSetdefault, dictLookup]
    · by_cases h2 : k2 = k1 <;> simp [dictSetdefault, dictLookup, h1, h2, ih]

theorem dictLookup_dictAddActive_self (d : WaterUseDict) (k : Int) (a : ℚ) :
    dictLookup (dictAddActive d k a) k =
      (dictLookup d k).map (fun v => DailyWaterUse.mk (v.active + a) v.non_active) := by
  induction d with
  | nil => simp [dictAddActive, dictLookup]
  | cons hd tl ih =>
    obtain ⟨k1, v1⟩ := hd
    by_cases h : k = k1
    · simp [dictAddActive, dictLookup, h]
    · simp [dictAddActive, dictLookup, h, ih]

theorem dictLookup_dictAddActive_ne (d : WaterUseDict) (k k2 : Int) (a : ℚ)
    (h : k2 ≠ k) : dictLookup (dictAddActive d k a) k2 = dictLookup d k2 := by
  induction d with
  | nil => simp [dictAddActive, dictLookup]
  | cons hd tl ih =>
    obtain ⟨k1, v1⟩ := hd
    by_cases h1 : k = k1
    · subst h1
      simp [dictAddActive, dictLookup, h]
    · by_cases h2 : k2 = k1 <;> simp [dictAddActive, dictLookup, h1, h2, ih]

theorem accumulate_report_nil (st : ℚ × WaterUseDict) :
    accumulate_report [] st = st := rfl

theorem accumulate_report_cons (e : WateringReportEntry)
    (rest : List WateringReportEntry) (st : ℚ × WaterUseDict) :
    accumulate_report (e :: rest) st = accumulate_report rest (accumulate_entry st e) := rfl

theorem total_active_use_nil : total_active_use [] = 0 := rfl

theorem total_active_use_cons (e : WateringReportEntry) (rest : List WateringReportEntry) :
    total_active_use (e :: rest) = entry_active e + total_active_use rest := by
  simp [total_active_use]

theorem zone_active_use_nil (k : Int) : zone_active_use [] k = 0 := rfl

theorem zone_active_use_cons (e : WateringReportEntry) (rest : List WateringReportEntry)
    (k : Int) :
    zone_active_use (e :: rest) k = entry_active_for k e + zone_active_use rest k := by
  simp [zone_active_use]

theorem attributes_zone_nil (k : Int) : attributes_zone [] k = false := rfl

theorem attributes_zone_cons (e : WateringReportEntry) (rest : List WateringReportEntry)
    (k : Int) :
    attributes_zone (e :: rest) k = (entry_attributes k e || attributes_zone rest k) := by
  simp [attributes_zone]

theorem accumulate_report_fst (report : List WateringReportEntry) :
    ∀ (t : ℚ) (d : WaterUseDict),
      (accumulate_report report (t, d)).1 = t + total_active_use report := by
  induction report with
  | nil =>
    intro t d
    simp [accumulate_report_nil, total_active_use_nil]
  | cons e rest ih =>
    intro t d
    rw [accumulate_report_cons, total_active_use_cons]
    rcases e with ⟨re⟩
    rcases re with _ | ⟨zo, uo⟩
    · simpa [accumulate_entry, entry_active] using ih t d
    rcases zo with _ | z
    · simpa [accumulate_entry, entry_active] using ih t d
    rcases uo with _ | u
    · simpa [accumulate_entry, entry_active] using ih t d
    simp only [accumulate_entry, entry_active]
    rw [ih]
    ring

theorem accumulate_report_lookup_some (report : List WateringReportEntry) :
    ∀ (t : ℚ) (d : WaterUseDict) (k : Int) (v : DailyWaterUse),
      dictLookup d k = some v →
      dictLookup (accumulate_report report (t, d)).2 k =
        some (DailyWaterUse.mk (v.active + zone_active_use report k) v.non_active) := by
  induction report with
  | nil =>
    intro t d k v h
    simp [accumulate_report_nil, zone_active_use_nil, h]
  | cons e rest ih =>
    intro t d k v h
    rw [accumulate_report_cons, zone_active_use_cons]
    rcases e with ⟨re⟩
    rcases re with _ | ⟨zo, uo⟩
    · simpa [accumulate_entry, entry_active_for] using ih t d k v h
    rcases zo with _ | z
    · simpa [accumulate_entry, entry_active_for] using ih t d k v h
    rcases uo with _ | u
    · simpa [accumulate_entry, entry_active_for] using ih t d k v h
    · simp only [accumulate_entry, entry_active_for]
      by_cases hz : z.id = k
      · subst hz
        have hl : dictLookup
            (dictAddActive (dictSetdefault d z.id (DailyWaterUse.mk 0 0)) z.id (to_gallons u))
            z.id = some (DailyWaterUse.mk (v.active + to_gallons u) v.non_active) := by
          rw [dictLookup_dictAddActive_self, dictLookup_dictSetdefault_self, h]
          rfl
        rw [ih _ _ _ _ hl]
        simp [add_assoc]
      · have hl : dictLookup
            (dictAddActive (dictSetdefault d z.id (DailyWaterUse.mk 0 0)) z.id (to_gallons u))
            k = some v := by
          rw [dictLookup_dictAddActive_ne _ _ _ _ (fun hc => hz hc.symm),
            dictLookup_dictSetdefault_ne _ _ _ _ (fun hc => hz hc.symm), h]
        rw [ih _ _ _ _ hl]
        simp [hz]

theorem accumulate_report_lookup_none (report : List WateringReportEntry) :
    ∀ (t : ℚ) (d : WaterUseDict) (k : Int),
      dictLookup d k = none →
      dictLookup (accumulate_report report (t, d)).2 k =
        if attributes_zone report k then
          some (DailyWaterUse.mk (zone_active_use report k) 0)
        else none := by
  induction report with
  | nil =>
    intro t d k h
    simp [accumulate_report_nil, attributes_zone_nil, h]
  | cons e rest ih =>
    intro t d k h
    rw [accumulate_report_cons, attributes_zone_cons, zone_active_use_cons]
    rcases e with ⟨re⟩
    rcases re with _ | ⟨zo, uo⟩
    · simpa [accumulate_entry, entry_active_for, entry_attributes] using ih t d k h
    rcases zo with _ | z
    · simpa [accumulate_entry, entry_active_for, entry_attributes] using ih t d k h
    rcases uo with _ | u
    · simpa [accumulate_entry, entry_active_for, entry_attributes] using ih t d k h
    · simp only [accumulate_entry, entry_active_for, entry_attributes]
      by_cases hz : z.id = k
      · subst hz
        have hl : dictLookup
            (dictAddActive (dictSetdefault d z.id (DailyWaterUse.mk 0 0)) z.id (to_gallons u))
            z.id = some (DailyWaterUse.mk (0 + to_gallons u) 0) := by
          rw [dictLookup_dictAddActive_self, dictLookup_dictSetdefault_self, h]
          rfl
        rw [accumulate_report_lookup_some _ _ _ _ _ hl]
        simp
      · have hl : dictLookup
            (dictAddActive (dictSetdefault d z.id (DailyWaterUse.mk 0 0)) z.id (to_gallons u))
            k = none := by
          rw [dictLookup_dictAddActive_ne _ _ _ _ (fun hc => hz hc.symm),
            dictLookup_dictSetdefault_ne _ _ _ _ (fun hc => hz hc.symm), h]
        rw [ih _ _ _ hl]
        simp [hz]

theorem dict_active_sum_nil : dict_active_sum [] = 0 := rfl

theorem dict_active_sum_cons (k : Int) (v : DailyWaterUse) (rest : WaterUseDict) :
    dict_active_sum ((k, v) :: rest) = v.active + dict_active_sum rest := by
  simp [dict_active_sum]

theorem dict_active_sum_dictSetdefault_zero (d : WaterUseDict) (k : Int) :
    dict_active_sum (dictSetdefault d k (DailyWaterUse.mk 0 0)) = dict_active_sum d := by
  induction d with
  | nil => simp [dictSetdefault, dict_active_sum]
  | cons hd tl ih =>
    obtain ⟨k1, v1⟩ := hd
    by_cases h : k = k1
    · rw [dictSetdefault, if_pos h]
    · rw [dictSetdefault, if_neg h, dict_active_sum_cons, dict_active_sum_cons, ih]

theorem dict_active_sum_dictAddActive (d : WaterUseDict) (k : Int) (a : ℚ)
    (h : dictLookup d k ≠ none) :
    dict_active_sum (dictAddActive d k a) = dict_active_sum d + a := by
  induction d with
  | nil => simp [dictLookup] at h
  | cons hd tl ih =>
    obtain ⟨k1, v1⟩ := hd
    by_cases hk : k = k1
    · rw [dictAddActive, if_pos hk, dict_active_sum_cons, dict_active_sum_cons]
      ring
    · have h2 : dictLookup tl k ≠ none := by
        simpa [dictLookup, hk] using h
      rw [dictAddActive, if_neg hk, dict_active_sum_cons, dict_active_sum_cons, ih h2]
      ring

theorem accumulate_report_sum (report : List WateringReportEntry) :
    ∀ (t : ℚ) (d : WaterUseDict),
      (accumulate_report report (t, d)).1 + dict_active_sum d =
        t + dict_active_sum (accumulate_report report (t, d)).2 := by
  induction report with
  | nil =>
    intro t d
    rw [accumulate_report_nil]
  | cons e rest ih =>
    intro t d
    rw [accumulate_report_cons]
    rcases e with ⟨re⟩
    rcases re with _ | ⟨zo, uo⟩
    · simpa [accumulate_entry] using ih t d
    rcases zo with _ | z
    · simpa [accumulate_entry] using ih t d
    rcases uo with _ | u
    · simpa [accumulate_entry] using ih t d
    · simp only [accumulate_entry]
      have hsum : dict_active_sum
          (dictAddActive (dictSetdefault d z.id (DailyWaterUse.mk 0 0)) z.id (to_gallons u)) =
          dict_active_sum d + to_gallons u := by
        rw [dict_active_sum_dictAddActive _ _ _
            (by rw [dictLookup_dictSetdefault_self]; exact Option.some_ne_none _),
          dict_active_sum_dictSetdefault_zero]
      have hrec := ih (t + to_gallons u)
        (dictAddActive (dictSetdefault d z.id (DailyWaterUse.mk 0 0)) z.id (to_gallons u))
      rw [hsum] at hrec
      linarith [hrec]

theorem update_daily_water_use_lookup_controller (report : List WateringReportEntry)
    (summary : WaterFlowSummary) (controller_id : Int) (d0 : WaterUseDict) :
    dictLookup (update_daily_water_use report summary controller_id d0) controller_id =
      some (DailyWaterUse.mk
        (max (to_gallons summary.total_water_volume) (total_active_use report))
        (max (to_gallons summary.total_water_volume) (total_active_use report)
          - total_active_use report)) := by
  simp only [update_daily_water_use]
  rw [dictLookup_dictSet_self, accumulate_report_fst, zero_add]
  rcases le_or_lt (to_gallons summary.total_water_volume) (total_active_use report) with h | h
  · simp only [gt_iff_lt, if_neg (not_lt.mpr h)]
    rw [max_eq_right h, sub_self]
  · simp only [gt_iff_lt, if_pos h]
    rw [max_eq_left h.le]

end Hydrawise

namespace AmbientNetwork

theorem isUpperAlpha_py_upper (c : Char) (h : isAlphaCh c = true) :
    isUpperAlpha (py_upper c) = true := by
  by_cases hl : isLowerAlpha c = true
  · have hb : 97 ≤ c.toNat ∧ c.toNat ≤ 122 := by simpa [isLowerAlpha] using hl
    obtain ⟨h1, h2⟩ := hb
    simp only [py_upper, hl, if_true]
    obtain ⟨n, hn⟩ : ∃ n, c.toNat = n := ⟨c.toNat, rfl⟩
    rw [hn] at h1 h2 ⊢
    interval_cases n <;> decide
  · have hu : isUpperAlpha c = true := by
      rcases Bool.or_eq_true _ _ |>.mp (by simpa [isAlphaCh] using h) with h0 | h0
      · exact absurd h0 hl
      · exact h0
    simpa [py_upper, hl] using hu

theorem findPartsF_head_alpha (fuel : Nat) :
    ∀ (w : List Char), ∀ p ∈ findPartsF fuel w,
      ∃ c cs, p = c :: cs ∧ isAlphaCh c = true := by
  induction fuel with
  | zero =>
    intro w p hp
    simp [findPartsF] at hp
  | succ n ih =>
    intro w p hp
    match w with
    | [] => simp [findPartsF] at hp
    | [c] => simp [findPartsF] at hp
    | c :: d :: rest =>
      rw [findPartsF] at hp
      by_cases h1 : (isLowerAlpha c && lowerTail d) = true
      · rw [if_pos h1] at hp
        rcases List.mem_cons.mp hp with h | h
        · exact ⟨c, _, h, by simp [isAlphaCh, (Bool.and_eq_true _ _ |>.mp h1).1]⟩
        · exact ih _ p h
      · rw [if_neg h1] at hp
        by_cases h2 : (isUpperAlpha c && lowerTail d) = true
        · rw [if_pos h2] at hp
          rcases List.mem_cons.mp hp with h | h
          · exact ⟨c, _, h, by simp [isAlphaCh, (Bool.and_eq_true _ _ |>.mp h2).1]⟩
          · exact ih _ p h
        · rw [if_neg h2] at hp
          by_cases h3 : (isUpperAlpha c && upperTail d) = true
          · rw [if_pos h3] at hp
            rcases List.mem_cons.mp hp with h | h
            · exact ⟨c, _, h, by simp [isAlphaCh, (Bool.and_eq_true _ _ |>.mp h3).1]⟩
            · exact ih _ p h
          · rw [if_neg h3] at hp
            exact ih _ p hp

theorem findPartsF_fuel_irrelevant (n : Nat) :
    ∀ (m : Nat) (w : List Char), w.length ≤ n → w.length ≤ m →
      findPartsF n w = findPartsF m w := by
  induction n with
  | zero =>
    intro m w hn _
    rw [List.length_eq_zero.mp (Nat.le_zero.mp hn)]
    cases m <;> rfl
  | succ n ih =>
    intro m w hn hm
    match w, m with
    | [], m => cases m <;> rfl
    | [c], m =>
      match m with
      | 0 => exact absurd hm (by simp)
      | m + 1 => rfl
    | c :: d :: rest, m =>
      match m with
      | 0 => exact absurd hm (by simp)
      | m + 1 =>
        have hrest : rest.length + 2 ≤ n + 1 := by simpa using hn
        have hrest2 : rest.length + 2 ≤ m + 1 := by simpa using hm
        have hd1 : (rest.dropWhile lowerTail).length ≤ n :=
          le_trans (List.dropWhile_sublist _).length_le (by omega)
        have hd2 : (rest.dropWhile lowerTail).length ≤ m :=
          le_trans (List.dropWhile_sublist _).length_le (by omega)
        have hu1 : (rest.dropWhile upperTail).length ≤ n :=
          le_trans (List.dropWhile_sublist _).length_le (by omega)
        have hu2 : (rest.dropWhile upperTail).length ≤ m :=
          le_trans (List.dropWhile_sublist _).length_le (by omega)
        have hs1 : (d :: rest).length ≤ n := by simp; omega
        have hs2 : (d :: rest).length ≤ m := by simp; omega
        rw [findPartsF, findPartsF]
        by_cases h1 : (isLowerAlpha c && lowerTail d) = true
        · rw [if_pos h1, if_pos h1, ih _ _ hd1 hd2]
        · rw [if_neg h1, if_neg h1]
          by_cases h2 : (isUpperAlpha c && lowerTail d) = true
          · rw [if_pos h2, if_pos h2, ih _ _ hd1 hd2]
          · rw [if_neg h2, if_neg h2]
            by_cases h3 : (isUpperAlpha c && upperTail d) = true
            · rw [if_pos h3, if_pos h3, ih _ _ hu1 hu2]
            · rw [if_neg h3, if_neg h3, ih _ _ hs1 hs2]

theorem partContribution_upper (p : List Char)
    (hp : ∃ c cs, p = c :: cs ∧ isAlphaCh c = true) :
    ∀ x ∈ partContribution p, isUpperAlpha x = true := by
  obtain ⟨c, cs, rfl, hc⟩ := hp
  intro x hx
  have hfirst : ∀ y ∈ firstUpper (c :: cs), isUpperAlpha y = true := by
    intro y hy
    rw [firstUpper, List.mem_singleton] at hy
    rw [hy]
    exact isUpperAlpha_py_upper c hc
  rcases hdw : List.dropWhile isAlphaCh (c :: cs) with _ | ⟨e, es⟩
  · rw [partContribution, hdw] at hx
    exact hfirst x hx
  · rw [partContribution, hdw] at hx
    simp only [] at hx
    by_cases hcond :
        (!(List.takeWhile isAlphaCh (c :: cs)).isEmpty && (e = '-' || isDigitCh e)) = true
    · rw [if_pos hcond] at hx
      obtain ⟨y, hy, rfl⟩ := List.mem_map.mp hx
      exact isUpperAlpha_py_upper y (List.mem_takeWhile_imp hy)
    · rw [if_neg hcond] at hx
      exact hfirst x hx

theorem rawMnemonic_upper (text : List Char) :
    ∀ x ∈ rawMnemonic text, isUpperAlpha x = true := by
  intro x hx
  rw [rawMnemonic, List.mem_flatten] at hx
  obtain ⟨wc, hwc, hxwc⟩ := hx
  obtain ⟨w, _, rfl⟩ := List.mem_map.mp hwc
  rw [List.mem_flatten] at hxwc
  obtain ⟨pc, hpc, hxpc⟩ := hxwc
  obtain ⟨p, hp, rfl⟩ := List.mem_map.mp hpc
  exact partContribution_upper p (findPartsF_head_alpha w.length w p hp) x hxpc

/-- C5: for every input string the mnemonic has length at most 4, every
character of it is an uppercase ASCII letter, and when fewer than 4 letters
are produced the result is exactly the unpadded shorter concatenation. -/
theorem mnemonic_short_upper_nopad (text : List Char) :
    (create_mnemonic text).length ≤ 4 ∧
    (∀ x ∈ create_mnemonic text, isUpperAlpha x = true) ∧
    ((rawMnemonic text).length < 4 → create_mnemonic text = rawMnemonic text) := by
  refine ⟨?_, ?_, ?_⟩
  · rw [create_mnemonic, List.length_take]
    omega
  · intro x hx
    exact rawMnemonic_upper text x (List.mem_of_mem_take hx)
  · intro h
    exact List.take_of_length_le (by omega)

/-- Witness for C5 at the input "Fort Collins", whose raw mnemonic "FC" is
shorter than 4 characters. -/
theorem mnemonic_short_upper_nopad_witness :
    ('F' ∈ create_mnemonic ("Fort Collins").data ∧
      isUpperAlpha 'F' = true) ∧
    ((rawMnemonic ("Fort Collins").data).length < 4 ∧
      create_mnemonic ("Fort Collins").data = rawMnemonic ("Fort Collins").data) :=
  ⟨⟨by decide, (mnemonic_short_upper_nopad ("Fort Collins").data).2.1 'F' (by decide)⟩,
   ⟨by decide, (mnemonic_short_upper_nopad ("Fort Collins").data).2.2 (by decide)⟩⟩

/-- C6 counterexample: the mnemonic is not always exactly 4 letters; the
spec's own example "Fort Collins" yields the 2-letter code "FC". -/
theorem mnemonic_not_always_four :
    create_mnemonic_str "Fort Collins" = "FC" ∧
    (create_mnemonic_str "Fort Collins").length ≠ 4 := by
  exact ⟨by decide, by decide⟩

/-- C6 amended: the mnemonic is a string of AT MOST 4 uppercase ASCII letters
(shorter names give shorter codes), and "Fort Collins" yields the 2-letter
code "FC". -/
theorem mnemonic_at_most_four :
    (∀ text : List Char, (create_mnemonic text).length ≤ 4 ∧
      ∀ x ∈ create_mnemonic text, isUpperAlpha x = true) ∧
    create_mnemonic_str "Fort Collins" = "FC" := by
  refine ⟨fun text => ⟨?_, ?_⟩, by decide⟩
  · rw [create_mnemonic, List.length_take]
    omega
  · intro x hx
    exact rawMnemonic_upper text x (List.mem_of_mem_take hx)

/-- Witness for C6 amended: the membership part applied at "Fort Collins" and
its first output letter. -/
theorem mnemonic_at_most_four_witness :
    'F' ∈ create_mnemonic ("Fort Collins").data ∧ isUpperAlpha 'F' = true :=
  ⟨by decide, (mnemonic_at_most_four.1 ("Fort Collins").data).2 'F' (by decide)⟩

/-- C7 counterexample: the mnemonic of "Mountain-View" is not "MOVI" (the
regex match keeps the whole letter run "Mountain" before the hyphen, so the
raw mnemonic is "MOUNTAINV" and its 4-letter truncation is "MOUN"). -/
theorem mountain_view_not_movi : create_mnemonic_str "Mountain-View" ≠ "MOVI" := by
  decide

/-- C7 amended: the mnemonic of "Mountain-View" is "MOUN": the first segment
"Mountain-" contributes all the letters before the hyphen and "View"
contributes its initial, and the concatenation "MOUNTAINV" is truncated
to 4 characters. -/
theorem mountain_view_moun : create_mnemonic_str "Mountain-View" = "MOUN" := by
  decide

/-- C10: a word of length 1 produces no regex segments (every alternative of
the segmentation regex needs at least two characters), hence contributes no
characters, and a name of only single-character words yields the empty
mnemonic. -/
theorem single_char_words_contribute_nothing :
    (∀ w : List Char, w.length = 1 →
      findParts w = [] ∧ ((findParts w).map partContribution).flatten = []) ∧
    create_mnemonic_str "A B C D" = "" := by
  constructor
  · intro w hw
    obtain ⟨c, rfl⟩ := List.length_eq_one.mp hw
    exact ⟨rfl, rfl⟩
  · decide

/-- Witness for C10 at the single-character word "Z". -/
theorem single_char_words_contribute_nothing_witness :
    (['Z'] : List Char).length = 1 ∧ findParts ['Z'] = [] :=
  ⟨by decide, (single_char_words_contribute_nothing.1 ['Z'] (by decide)).1⟩

end AmbientNetwork

namespace Hydrawise

theorem sampleReport_total : total_active_use sampleReport = 10 := by
  norm_num [total_active_use, sampleReport, sampleEvent, entry_active, to_gallons,
    unitInGallons]

theorem sampleSummary_gallons (v : ℚ) :
    to_gallons (sampleSummary v).total_water_volume = v := by
  simp [sampleSummary, to_gallons, unitInGallons]

theorem sample_gt_3 :
    total_active_use sampleReport > to_gallons (sampleSummary 3).total_water_volume := by
  rw [sampleReport_total, sampleSummary_gallons]
  norm_num

theorem sample_lt_25 :
    to_gallons (sampleSummary 25).total_water_volume > total_active_use sampleReport := by
  rw [sampleReport_total, sampleSummary_gallons]
  norm_num

theorem sample_acc_zone :
    dictLookup (accumulate_report sampleReport (0, [])).2 5 =
      some (DailyWaterUse.mk 10 0) := by
  norm_num [accumulate_report, accumulate_entry, sampleReport, sampleEvent, to_gallons,
    unitInGallons, dictSetdefault, dictAddActive, dictLookup]

theorem sample_update_zone :
    dictLookup (update_daily_water_use sampleReport (sampleSummary 25) 1 []) 5 =
      some (DailyWaterUse.mk 10 0) := by
  simp only [update_daily_water_use]
  rw [dictLookup_dictSet_ne _ _ _ _ (by decide : (5 : Int) ≠ 1)]
  exact sample_acc_zone

theorem sample_update_25 :
    dictLookup (update_daily_water_use sampleReport (sampleSummary 25) 1 []) 1 =
      some (DailyWaterUse.mk 25 15) := by
  rw [update_daily_water_use_lookup_controller, sampleSummary_gallons, sampleReport_total]
  rw [max_eq_left (by norm_num : (10 : ℚ) ≤ 25)]
  norm_num

end Hydrawise

namespace Hydrawise

theorem update_daily_water_use_lookup_ne (report : List WateringReportEntry)
    (summary : WaterFlowSummary) (controller_id : Int) (d0 : WaterUseDict) (z : Int)
    (hz : z ≠ controller_id) :
    dictLookup (update_daily_water_use report summary controller_id d0) z =
      dictLookup (accumulate_report report (0, d0)).2 z := by
  simp only [update_daily_water_use]
  rw [dictLookup_dictSet_ne _ _ _ _ hz]

theorem colliding_eval :
    update_daily_water_use collidingReport (sampleSummary 25) 7 [] =
      [(7, DailyWaterUse.mk 25 15)] := by
  norm_num [update_daily_water_use, accumulate_report, accumulate_entry, collidingReport,
    sampleEvent, sampleSummary, to_gallons, unitInGallons, dictSetdefault, dictAddActive,
    dictSet]

theorem colliding_zone_use : zone_active_use collidingReport 7 = 10 := by
  norm_num [zone_active_use, collidingReport, sampleEvent, entry_active_for, to_gallons,
    unitInGallons]

/-- C1: for inputs with non-negative event volumes and a non-negative flow
total, the controller entry written by `_async_update_daily_water_use` has an
inactive component equal to `max T A - A` (for `T` the gallons-converted flow
total and `A` the accumulated active total), and that quantity is never
negative, with no consistency assumption relating `A` and `T`. -/
theorem hydrawise_inactive_max_floor (report : List WateringReportEntry)
    (summary : WaterFlowSummary) (controller_id : Int) (d0 : WaterUseDict)
    (hvols : ∀ e ∈ report, 0 ≤ entry_usage_value e)
    (hT : 0 ≤ summary.total_water_volume.value) :
    (∃ total : ℚ,
      dictLookup (update_daily_water_use report summary controller_id d0) controller_id =
        some (DailyWaterUse.mk total
          (max (to_gallons summary.total_water_volume) (total_active_use report)
            - total_active_use report))) ∧
    0 ≤ max (to_gallons summary.total_water_volume) (total_active_use report)
        - total_active_use report := by
  constructor
  · exact ⟨_, update_daily_water_use_lookup_controller report summary controller_id d0⟩
  · exact sub_nonneg.mpr (le_max_right _ _)

/-- Witness for C1 at a one-event report (zone 5, 10 gallons) and a 3-gallon
flow total (an inconsistent pair: active exceeds the meter total). -/
theorem hydrawise_inactive_max_floor_witness :
    (∀ e ∈ sampleReport, 0 ≤ entry_usage_value e) ∧
    (0 ≤ (sampleSummary 3).total_water_volume.value) ∧
    ((∃ total : ℚ,
      dictLookup (update_daily_water_use sampleReport (sampleSummary 3) 1 []) 1 =
        some (DailyWaterUse.mk total
          (max (to_gallons (sampleSummary 3).total_water_volume)
            (total_active_use sampleReport) - total_active_use sampleReport))) ∧
    0 ≤ max (to_gallons (sampleSummary 3).total_water_volume)
        (total_active_use sampleReport) - total_active_use sampleReport) :=
  ⟨by decide, by decide,
    hydrawise_inactive_max_floor sampleReport (sampleSummary 3) 1 [] (by decide) (by decide)⟩

/-- C2: when the accumulated active total `A` exceeds the flow total `T` the
controller entry is `(A, 0)`; when `T` exceeds `A` it is `(T, T - A)`. -/
theorem hydrawise_dominance_cases (report : List WateringReportEntry)
    (summary : WaterFlowSummary) (controller_id : Int) (d0 : WaterUseDict) :
    (total_active_use report > to_gallons summary.total_water_volume →
      dictLookup (update_daily_water_use report summary controller_id d0) controller_id =
        some (DailyWaterUse.mk (total_active_use report) 0)) ∧
    (to_gallons summary.total_water_volume > total_active_use report →
      dictLookup (update_daily_water_use report summary controller_id d0) controller_id =
        some (DailyWaterUse.mk (to_gallons summary.total_water_volume)
          (to_gallons summary.total_water_volume - total_active_use report))) := by
  constructor
  · intro h
    rw [update_daily_water_use_lookup_controller, max_eq_right h.le, sub_self]
  · intro h
    rw [update_daily_water_use_lookup_controller, max_eq_left h.le]

/-- Witness for C2: the active-dominance case at flow total 3 (active 10) and
the flow-dominance case at flow total 25. -/
theorem hydrawise_dominance_cases_witness :
    (total_active_use sampleReport > to_gallons (sampleSummary 3).total_water_volume ∧
      dictLookup (update_daily_water_use sampleReport (sampleSummary 3) 1 []) 1 =
        some (DailyWaterUse.mk (total_active_use sampleReport) 0)) ∧
    (to_gallons (sampleSummary 25).total_water_volume > total_active_use sampleReport ∧
      dictLookup (update_daily_water_use sampleReport (sampleSummary 25) 1 []) 1 =
        some (DailyWaterUse.mk (to_gallons (sampleSummary 25).total_water_volume)
          (to_gallons (sampleSummary 25).total_water_volume
            - total_active_use sampleReport))) :=
  ⟨⟨sample_gt_3, (hydrawise_dominance_cases sampleReport (sampleSummary 3) 1 []).1 sample_gt_3⟩,
   ⟨sample_lt_25,
    (hydrawise_dominance_cases sampleReport (sampleSummary 25) 1 []).2 sample_lt_25⟩⟩

/-- C3: starting from a fresh dict, the loop's accumulated controller-wide
active total equals the sum of the per-entry active volumes, equals the sum of
the `active` fields recorded in the accumulator dict, and the controller entry
finally reported never carries a total below that active total. -/
theorem hydrawise_active_sum_consistency (report : List WateringReportEntry)
    (summary : WaterFlowSummary) (controller_id : Int) :
    (accumulate_report report (0, [])).1 = total_active_use report ∧
    (accumulate_report report (0, [])).1 =
      dict_active_sum (accumulate_report report (0, [])).2 ∧
    ∀ v : DailyWaterUse,
      dictLookup (update_daily_water_use report summary controller_id []) controller_id =
        some v →
      total_active_use report ≤ v.active := by
  refine ⟨?_, ?_, ?_⟩
  · rw [accumulate_report_fst, zero_add]
  · have h := accumulate_report_sum report 0 []
    rw [dict_active_sum_nil, add_zero, zero_add] at h
    exact h
  · intro v hv
    rw [update_daily_water_use_lookup_controller] at hv
    obtain rfl := Option.some.inj hv
    exact le_max_right _ _

/-- Witness for C3 at the one-event report and 25-gallon flow total: the
reported controller entry is `(25, 15)` and its total 25 is at least the
active total. -/
theorem hydrawise_active_sum_consistency_witness :
    (dictLookup (update_daily_water_use sampleReport (sampleSummary 25) 1 []) 1 =
      some (DailyWaterUse.mk 25 15)) ∧
    total_active_use sampleReport ≤ (DailyWaterUse.mk 25 15).active :=
  ⟨sample_update_25,
   (hydrawise_active_sum_consistency sampleReport (sampleSummary 25) 1).2.2
     (DailyWaterUse.mk 25 15) sample_update_25⟩

/-- C4: the reconciliation is a pure function of the two API snapshots: two
runs over the same snapshot, each starting from its own fresh empty result
dict, produce identical outputs, and each equals the result of one
`_async_update_data` poll. -/
theorem hydrawise_reconcile_stateless (api : ApiSnapshot) (d1 d2 : WaterUseDict)
    (h1 : d1 = []) (h2 : d2 = []) :
    update_data_water_use_from api d1 = update_data_water_use_from api d2 ∧
    update_data_water_use_from api d1 = update_data_water_use api := by
  subst h1
  subst h2
  exact ⟨rfl, rfl⟩

/-- Witness for C4 at a concrete snapshot with one controller and one
flow-meter sensor. -/
theorem hydrawise_reconcile_stateless_witness :
    (([] : WaterUseDict) = [] ∧ ([] : WaterUseDict) = []) ∧
    (update_data_water_use_from sampleApi [] = update_data_water_use_from sampleApi [] ∧
      update_data_water_use_from sampleApi [] = update_data_water_use sampleApi) :=
  ⟨⟨rfl, rfl⟩, hydrawise_reconcile_stateless sampleApi [] [] rfl rfl⟩

/-- C8 counterexample: the code keeps zone and controller entries in ONE dict,
so when a zone's id (7) collides with the controller's id, the controller
write overwrites the zone's accumulated entry: the result is the single entry
`(7, (25, 15))` and the zone's accumulated active volume (10 gallons,
`zone_active_use collidingReport 7`) is present nowhere. -/
theorem hydrawise_zone_entry_clobbered :
    update_daily_water_use collidingReport (sampleSummary 25) 7 [] =
      [(7, DailyWaterUse.mk 25 15)] ∧
    ∀ p ∈ update_daily_water_use collidingReport (sampleSummary 25) 7 [],
      p.2.active ≠ zone_active_use collidingReport 7 := by
  refine ⟨colliding_eval, ?_⟩
  intro p hp
  rw [colliding_eval] at hp
  rw [List.mem_singleton] at hp
  rw [hp, colliding_zone_use]
  norm_num

/-- C8 amended: the result is a single id-keyed mapping serving both roles;
every zone entry of the accumulator survives into the result provided the
zone's id differs from the controller's id (the controller write only
overwrites its own key), and the controller entry is always present. -/
theorem hydrawise_single_dict_split (report : List WateringReportEntry)
    (summary : WaterFlowSummary) (controller_id z : Int) (v : DailyWaterUse)
    (hz : z ≠ controller_id)
    (h : dictLookup (accumulate_report report (0, [])).2 z = some v) :
    dictLookup (update_daily_water_use report summary controller_id []) z = some v ∧
    ∃ w : DailyWaterUse,
      dictLookup (update_daily_water_use report summary controller_id []) controller_id =
        some w := by
  constructor
  · simp only [update_daily_water_use]
    rw [dictLookup_dictSet_ne _ _ _ _ hz]
    exact h
  · exact ⟨_, update_daily_water_use_lookup_controller report summary controller_id []⟩

/-- Witness for C8 amended: zone 5 differs from controller id 1 and its
accumulated entry `(10, 0)` survives. -/
theorem hydrawise_single_dict_split_witness :
    ((5 : Int) ≠ 1 ∧
      dictLookup (accumulate_report sampleReport (0, [])).2 5 =
        some (DailyWaterUse.mk 10 0)) ∧
    (dictLookup (update_daily_water_use sampleReport (sampleSummary 25) 1 []) 5 =
        some (DailyWaterUse.mk 10 0) ∧
      ∃ w : DailyWaterUse,
        dictLookup (update_daily_water_use sampleReport (sampleSummary 25) 1 []) 1 =
          some w) :=
  ⟨⟨by decide, sample_acc_zone⟩,
   hydrawise_single_dict_split sampleReport (sampleSummary 25) 1 5
     (DailyWaterUse.mk 10 0) (by decide) sample_acc_zone⟩

/-- C9: `_async_update_daily_water_use` mutates the shared dict and is not
idempotent on it: running it twice with the same inputs doubles the `active`
accumulator of every zone entry (any key other than the controller's), while
the controller entry is overwritten both times and so keeps its single-run
value. -/
theorem hydrawise_double_update_doubles (report : List WateringReportEntry)
    (summary : WaterFlowSummary) (controller_id : Int) :
    (∀ z : Int, z ≠ controller_id → ∀ v : DailyWaterUse,
      dictLookup (update_daily_water_use report summary controller_id []) z = some v →
      dictLookup (update_daily_water_use report summary controller_id
        (update_daily_water_use report summary controller_id [])) z =
        some (DailyWaterUse.mk (2 * v.active) v.non_active)) ∧
    dictLookup (update_daily_water_use report summary controller_id
        (update_daily_water_use report summary controller_id [])) controller_id =
      dictLookup (update_daily_water_use report summary controller_id []) controller_id := by
  constructor
  · intro z hz v hv
    have hacc : dictLookup (accumulate_report report (0, [])).2 z = some v := by
      rw [update_daily_water_use_lookup_ne report summary controller_id [] z hz] at hv
      exact hv
    have hshape : v = DailyWaterUse.mk (zone_active_use report z) 0 := by
      rw [accumulate_report_lookup_none report 0 [] z rfl] at hacc
      rcases hattr : attributes_zone report z with _ | _
      · rw [hattr] at hacc
        simp at hacc
      · rw [hattr] at hacc
        simpa using hacc.symm
    rw [update_daily_water_use_lookup_ne report summary controller_id _ z hz]
    rw [accumulate_report_lookup_some report 0 _ z v hv]
    rw [hshape]
    simp [two_mul]
  · rw [update_daily_water_use_lookup_controller, update_daily_water_use_lookup_controller]

/-- Witness for C9: zone 5 (entry `(10, 0)` after one run) holds `(20, 0)`
after the second run on the same dict. -/
theorem hydrawise_double_update_doubles_witness :
    ((5 : Int) ≠ 1 ∧
      dictLookup (update_daily_water_use sampleReport (sampleSummary 25) 1 []) 5 =
        some (DailyWaterUse.mk 10 0)) ∧
    dictLookup (update_daily_water_use sampleReport (sampleSummary 25) 1
        (update_daily_water_use sampleReport (sampleSummary 25) 1 [])) 5 =
      some (DailyWaterUse.mk (2 * (DailyWaterUse.mk 10 0).active)
        (DailyWaterUse.mk 10 0).non_active) :=
  ⟨⟨by decide, sample_update_zone⟩,
   (hydrawise_double_update_doubles sampleReport (sampleSummary 25) 1).1 5 (by decide)
     (DailyWaterUse.mk 10 0) sample_update_zone⟩

end Hydrawise

/-!
Concrete validation runs of the mnemonic embedding, mirroring the behaviour
of the Python regex primitives on representative station names.
-/

section MnemonicScratch

open AmbientNetwork

example : create_mnemonic_str "Mountain-View" = "MOUN" := by decide
example : create_mnemonic_str "Fort Collins" = "FC" := by decide
example : create_mnemonic_str "A B C D" = "" := by decide
example : create_mnemonic_str "" = "" := by decide
example : create_mnemonic_str "CO-Weather" = "COE" := by decide
example : create_mnemonic_str "Fort Collins CO-Weather" = "FCCO" := by decide
example : findParts "Mountain-View".data = ["Mountain-".data, "View".data] := by decide
example : findParts "CO-Weather".data = ["CO-W".data, "eather".data] := by decide
example : findParts "A1B".data = ["A1".data] := by decide
example : findParts "AB-CD".data = ["AB-CD".data] := by decide
example : findParts "aB".data = [] := by decide
example : findParts "1a".data = [] := by decide
example : findParts "a1".data = ["a1".data] := by decide
example : findParts "A-B".data = ["A-".data] := by decide
example : findParts "ALLCAPS".data = ["ALLCAPS".data] := by decide
example : findParts "-ab".data = ["ab".data] := by decide
example : findParts "Foo2Bar".data = ["Foo2".data, "Bar".data] := by decide
example : findParts "O2-sensor".data = ["O2-sensor".data] := by decide
example : create_mnemonic_str "O2-sensor" = "O" := by decide
example : create_mnemonic_str "Foo2Bar ab- A-B" = "FOOB" := by decide

end MnemonicScratch
